import Mathlib

/-!
Verification of the skyview timelapse capture-session controller
(`skyview.py`) against its natural-language specification.

The Python source is shallowly embedded: pure functions become Lean
functions, the fallible parts return `Except`, the browser-automation
driver is an oracle parameter, and the side-effecting main flow is
modelled as an event trace.
-/

deriving instance DecidableEq for Except

namespace Skyview

/-- The error taxonomy, modelling the Python exceptions that the script
raises or lets escape.  `keyError k` models a raw `KeyError(k)` from a
dict lookup; `noBrowserFound k` models `LookupError('No browser found: k')`;
`noSupportedBrowser` models `LookupError('No supported browser found')`;
`webDriverException` models selenium's launch-time `WebDriverException`;
`invalidTimeFormat` models `ValueError('Invalid time format')`;
`fileExistsError` models `FileExistsError` from `Path.mkdir(exist_ok=False)`;
`indexError` models Python's `IndexError`. -/
inductive PyError where
  | keyError (k : String)
  | indexError
  | webDriverException
  | noBrowserFound (k : String)
  | noSupportedBrowser
  | invalidTimeFormat
  | fileExistsError
  deriving DecidableEq, Repr

/-! ## DurationResolver: `time2seconds` (skyview.py lines 53-66)

```python
def time2seconds(s: str) -> int:
    try:
        result = re.match(r'^(\d+)([mhs])$', s)
        number = int(result.group(1))
        unit = result.group(2)
    except Exception as e:
        raise ValueError('Invalid time format') from e
    if unit == 'h':
        return number * 3600
    elif unit == 'm':
        return number * 60
    else:
        return number
```

The regex demands one or more digits followed by exactly one unit
character from `{m, h, s}`; on no match, `result` is `None` and the
`.group` attribute error is converted to `ValueError`. -/

/-- Decimal value denoted by a list of digit characters, most significant
first: the number `int()` returns on the matched digit group. -/
def digitsVal (l : List Char) : Nat :=
  l.foldl (fun a c => a * 10 + (c.toNat - '0'.toNat)) 0

/-- Whether a character is an ASCII decimal digit (the `\d` class on the
tokens at issue). -/
def isDig (c : Char) : Bool := '0' ≤ c && c ≤ '9'

/-- The character class `[mhs]` of the duration regex. -/
def isUnit (c : Char) : Bool := c == 'h' || c == 'm' || c == 's'

/-- Embedding of `time2seconds`.  The string matches `^(\d+)([mhs])$`
exactly when its final character is one of `m`, `h`, `s` and the (nonempty)
remainder is all digits; otherwise the `ValueError('Invalid time format')`
path is taken. -/
def time2seconds (s : String) : Except PyError Nat :=
  let cs := s.data
  let num := cs.dropLast
  match cs.getLast? with
  | none => .error .invalidTimeFormat
  | some unit =>
      if isUnit unit && !num.isEmpty && num.all isDig then
        let number := digitsVal num
        if unit == 'h' then .ok (number * 3600)
        else if unit == 'm' then .ok (number * 60)
        else .ok number
      else .error .invalidTimeFormat

/-! ## BrowserAcquirer: `create_driver` / `choose_driver` (lines 15-50, 81-84)

```python
BROWSERS = {
    'chrome': (webdriver.Chrome, webdriver.ChromeService, webdriver.ChromeOptions),
    'firefox': (webdriver.Firefox, webdriver.FirefoxService, webdriver.FirefoxOptions),
    'edge': (webdriver.Edge, webdriver.EdgeService, webdriver.EdgeOptions),
    'safari': (webdriver.Safari, webdriver.SafariService, webdriver.SafariOptions),
}

def create_driver(browser, window_size, driver_path=None):
    try:
        driverclass, serviceclass, optionsclass = BROWSERS[browser]
        options = optionsclass(); options.add_argument('--headless')
        options.add_argument(f'--window-size={...}')
        service = serviceclass(executable_path=driver_path)
        driver = driverclass(service=service, options=options)
        return driver
    except IndexError as e:
        raise LookupError(f'No browser found: {browser}') from e

def choose_driver(window_size):
    for browser in BROWSERS:
        with contextlib.suppress(WebDriverException):
            return create_driver(browser, window_size)
    raise LookupError('No supported browser found')
```

The selenium driver classes are opaque capability providers; a launch
(`driverclass(service=service, options=options)`) is modelled by an
oracle function from the browser kind, the requested window size and the
optional driver executable path to either a `Session` or an error.  Each
embedded acquisition function also returns the list of browser kinds
whose launch was attempted, so that "never attempts a launch" claims are
expressible. -/

/-- The closed set of browser kinds in the capability table. -/
inductive Browser where
  | chrome
  | firefox
  | edge
  | safari
  deriving DecidableEq, Repr

/-- A live handle to a running browser instance (opaque; identified by a
numeric id so distinct sessions are distinguishable). -/
structure Session where
  id : Nat
  deriving DecidableEq, Repr

/-- Requested window size in pixels `(width, height)`. -/
abbrev WinSize := Nat × Nat

/-- The launch oracle: `driverclass(service=service, options=options)`.
Arguments carry what the options/service bundle carries in the source:
the window size (from `--window-size`) and the optional driver
executable path (from `executable_path`). -/
abbrev LaunchFn := Browser → WinSize → Option String → Except PyError Session

/-- Iteration order of the `BROWSERS` dict: Python dicts iterate in
declaration order. -/
def BROWSERS_order : List String := ["chrome", "firefox", "edge", "safari"]

/-- The lookup `BROWSERS[key]`: `some` of the capability on a known key,
`none` (a `KeyError`) otherwise. -/
def BROWSERS_find (k : String) : Option Browser :=
  if k = "chrome" then some .chrome
  else if k = "firefox" then some .firefox
  else if k = "edge" then some .edge
  else if k = "safari" then some .safari
  else none

/-- Embedding of `create_driver`.  Returns the result together with the
list of kinds whose launch was attempted.  The `try` body first performs
the dict lookup `BROWSERS[browser]` (raising `KeyError` on a miss), then
launches; the `except IndexError` clause converts an `IndexError` — and
only an `IndexError` — into `LookupError('No browser found: ...')`. -/
def create_driver (launch : LaunchFn) (browser : String) (window_size : WinSize)
    (driver_path : Option String := none) : Except PyError Session × List Browser :=
  let body : Except PyError Session × List Browser :=
    match BROWSERS_find browser with
    | none => (.error (.keyError browser), [])
    | some b => (launch b window_size driver_path, [b])
  match body with
  | (.error .indexError, att) => (.error (.noBrowserFound browser), att)
  | r => r

/-- The `for browser in BROWSERS` loop of `choose_driver`: each iteration
runs `create_driver(browser, window_size)` (default driver path) under
`contextlib.suppress(WebDriverException)`, returning on success,
continuing on a suppressed `WebDriverException`, and letting any other
error propagate.  Falls through to `LookupError('No supported browser
found')`. -/
def choose_go (launch : LaunchFn) (window_size : WinSize) :
    List String → Except PyError Session × List Browser
  | [] => (.error .noSupportedBrowser, [])
  | k :: rest =>
      match create_driver launch k window_size none with
      | (.ok s, att) => (.ok s, att)
      | (.error .webDriverException, att) =>
          let r := choose_go launch window_size rest
          (r.1, att ++ r.2)
      | (.error e, att) => (.error e, att)

/-- Embedding of `choose_driver`. -/
def choose_driver (launch : LaunchFn) (window_size : WinSize) :
    Except PyError Session × List Browser :=
  choose_go launch window_size BROWSERS_order

/-- The driver dispatch of `__main__` (lines 81-84):
`create_driver(args.browser, args.window_size, args.driver_path)` when a
browser was named, `choose_driver(args.window_size)` otherwise. -/
def acquire (launch : LaunchFn) (browserArg : Option String) (window_size : WinSize)
    (driver_path : Option String) : Except PyError Session × List Browser :=
  match browserArg with
  | some b => create_driver launch b window_size driver_path
  | none => choose_driver launch window_size

/-! ## ViewportCalibrator: the calibration block (lines 109-120)

```python
player.screenshot(str(path))
head = tmpfile.read(24)
actual_width, actual_height = struct.unpack('>ii', head[16:24])
width_diff = args.window_size[0] - actual_width
height_diff = args.window_size[1] - actual_height
if width_diff or height_diff:
    print(f'Resizing window by {width_diff}x{height_diff}')
    driver.set_window_size(args.window_size[0] + width_diff,
                           args.window_size[1] + height_diff)
    time.sleep(1)
```

The screenshot decode (`struct.unpack('>ii', head[16:24])`) yields the
measured pixel size of the capture target; sizes and diffs are modelled
as `Int` (`>i` is a signed 32-bit field, and diffs can be negative).
The block is modelled as the trace of driver calls it issues. -/

/-- One driver call made by the calibration block. -/
inductive CalEvent where
  | measure
  | resize (w h : Int)
  deriving DecidableEq, Repr

/-- Trace of the calibration block, given the requested window size and
the measured `(actual_width, actual_height)` decoded from the size-test
screenshot: one measurement, then a resize exactly when either diff is
non-zero (Python `if width_diff or height_diff`). -/
def calibrate (requested actual : Int × Int) : List CalEvent :=
  let width_diff := requested.1 - actual.1
  let height_diff := requested.2 - actual.2
  if width_diff ≠ 0 ∨ height_diff ≠ 0 then
    [.measure, .resize (requested.1 + width_diff) (requested.2 + height_diff)]
  else
    [.measure]

/-- The resize calls contained in a calibration trace. -/
def resizeCalls (t : List CalEvent) : List (Int × Int) :=
  t.filterMap fun e =>
    match e with
    | .resize w h => some (w, h)
    | .measure => none

/-- The measurement count of a calibration trace. -/
def measureCount (t : List CalEvent) : Nat :=
  (t.filter fun e => e = CalEvent.measure).length

/-! ## CaptureLoop: count resolution, filenames, loop body (lines 122-137)

```python
if args.num_screenshots:
    num_screenshots = args.num_screenshots
else:
    num_screenshots = int(args.time / args.interval)

digits = len(str(num_screenshots))

for i in range(num_screenshots):
    screenshot_path = screenshots_dir / f'{i:0{digits}d}.png'
    player.screenshot(str(screenshot_path))
    print(f'Saved {screenshot_path}')
    time.sleep(args.interval)
```
-/

/-- `int(args.time / args.interval)` when `--num-screenshots` was not
given (so `args.num_screenshots` is `None`, hence falsy): truncation of
the exact quotient, which on non-negative operands is floor division. -/
def resolve_num_screenshots (num_screenshots : Option Nat) (timeSecs : Nat)
    (interval : Nat) : Nat :=
  match num_screenshots with
  | some n => if n ≠ 0 then n else timeSecs / interval
  | none => timeSecs / interval

/-- Decimal digit characters of `n`, most significant first, by repeated
division; `fuel` bounds the recursion (`n` itself suffices). -/
def toDecimalAux : Nat → Nat → List Char
  | 0, _ => []
  | _ + 1, 0 => []
  | fuel + 1, n => toDecimalAux fuel (n / 10) ++ [Char.ofNat (48 + n % 10)]

/-- Python `str(n)` for a non-negative integer. -/
def strNat (n : Nat) : List Char :=
  if n = 0 then ['0'] else toDecimalAux n n

/-- `digits = len(str(num_screenshots))`. -/
def digitCount (n : Nat) : Nat := (strNat n).length

/-- The f-string `f'{i:0{d}d}'`: the decimal form of `i` left-padded with
zeros to a minimum width of `d`. -/
def padded (d i : Nat) : List Char :=
  List.replicate (d - (strNat i).length) '0' ++ strNat i

/-- The screenshot filename `f'{i:0{digits}d}.png'`. -/
def screenshotName (d i : Nat) : String :=
  ⟨padded d i ++ ['.', 'p', 'n', 'g']⟩

/-- The filenames produced by a whole run of `count` captures. -/
def runFilenames (count : Nat) : List String :=
  (List.range count).map fun i => screenshotName (digitCount count) i

/-- One observable action of the capture loop. -/
inductive RunEvent where
  | screenshot (path : String)
  | report (path : String)
  | sleep (secs : Nat)
  deriving DecidableEq, Repr

/-- The path `screenshots_dir / f'{i:0{digits}d}.png'`. -/
def shotPath (outDir : String) (d i : Nat) : String :=
  outDir ++ "/" ++ screenshotName d i

/-- The `for i in range(num_screenshots)` loop, unrolled from index `i`
with `n` iterations remaining: each iteration captures a screenshot to
the padded path, prints it, then sleeps for the interval. -/
def capture_from (outDir : String) (d interval i : Nat) : Nat → List RunEvent
  | 0 => []
  | n + 1 =>
      .screenshot (shotPath outDir d i) :: .report (shotPath outDir d i) ::
        .sleep interval :: capture_from outDir d interval (i + 1) n

/-- The capture loop of `__main__`: `digits` computed once from the total
count, then `count` iterations starting at index 0. -/
def capture_loop (outDir : String) (count interval : Nat) : List RunEvent :=
  capture_from outDir (digitCount count) interval 0 count

/-- The sleep events of a capture-loop trace. -/
def sleepCount (t : List RunEvent) : Nat :=
  (t.filter fun e =>
    match e with
    | .sleep _ => true
    | _ => false).length

/-- Lines 122-137 as one step: `screenshots_dir.mkdir(exist_ok=False)`
raises `FileExistsError` when the directory pre-exists, and only
otherwise does the capture loop run. -/
def run_captures (dirExists : Bool) (outDir : String) (count interval : Nat) :
    Except PyError (List RunEvent) :=
  if dirExists then .error .fileExistsError
  else .ok (capture_loop outDir count interval)

/-! ## Scoped release: the `try`/`finally` of `__main__` (lines 86-142)

Everything after driver acquisition runs inside `try: ... finally:
driver.quit()`.  The body (navigation, calibration, capture loop) is
abstracted as the trace of events it performed plus the error, if any,
that aborted it; the wrapper appends the `quit` call on both paths. -/

/-- An observable action of the whole run once a driver exists. -/
inductive MainEvent where
  | act (e : RunEvent)
  | quit
  deriving DecidableEq, Repr

/-- The `try`/`finally` wrapper: whatever the body did and however it
ended, `driver.quit()` runs last, and the body's error (if any) is then
re-raised. -/
def with_driver (bodyEvents : List RunEvent) (bodyError : Option PyError) :
    List MainEvent × Option PyError :=
  (bodyEvents.map .act ++ [.quit], bodyError)

/-! ## Concrete fixtures used to instantiate the oracle-parametrised
theorems -/

/-- Example launch oracle: chrome and firefox fail at launch time with a
`WebDriverException`, edge and safari launch. -/
def edgeOnlyLaunch : LaunchFn := fun b _ _ =>
  match b with
  | .edge => .ok ⟨7⟩
  | .safari => .ok ⟨8⟩
  | _ => .error .webDriverException

/-- A launch oracle agreeing with `edgeOnlyLaunch` whenever the driver
path is absent, but failing whenever an explicit driver path is
supplied. -/
def edgeOnlyLaunchAlt : LaunchFn := fun b ws dp =>
  match dp with
  | none => edgeOnlyLaunch b ws none
  | some _ => .error .webDriverException

end Skyview

namespace Skyview

/-! ## Theorems -/

/-- A decimal digit character is never one of the unit characters. -/
theorem isUnit_eq_false_of_isDig {c : Char} (h : isDig c = true) :
    isUnit c = false := by
  cases hb : isUnit c
  · rfl
  · exfalso
    rw [isUnit, Bool.or_eq_true, Bool.or_eq_true] at hb
    rcases hb with (hh | hm) | hs
    · rw [beq_iff_eq] at hh; subst hh; exact absurd h (by decide)
    · rw [beq_iff_eq] at hm; subst hm; exact absurd h (by decide)
    · rw [beq_iff_eq] at hs; subst hs; exact absurd h (by decide)

/-- Claim C1 (amended): every well-formed unit token `<n>h`, `<n>m`,
`<n>s` resolves to `n*3600`, `n*60`, `n` respectively, while a bare
integer token `<n>` with no unit is rejected with the invalid-format
error; in particular "2h" yields 7200, "90m" yields 5400, "45s" yields
45, and "45" is rejected. -/
theorem time2seconds_wellFormed :
    (∀ ds : List Char, ds ≠ [] → ds.all isDig = true →
      time2seconds ⟨ds ++ ['h']⟩ = .ok (digitsVal ds * 3600) ∧
      time2seconds ⟨ds ++ ['m']⟩ = .ok (digitsVal ds * 60) ∧
      time2seconds ⟨ds ++ ['s']⟩ = .ok (digitsVal ds) ∧
      time2seconds ⟨ds⟩ = .error .invalidTimeFormat) ∧
    time2seconds "2h" = .ok 7200 ∧
    time2seconds "90m" = .ok 5400 ∧
    time2seconds "45s" = .ok 45 ∧
    time2seconds "45" = .error .invalidTimeFormat := by
  constructor
  · intro ds hne hdig
    have hisE : ds.isEmpty = false := by
      cases ds with
      | nil => exact absurd rfl hne
      | cons a l => rfl
    refine ⟨?_, ?_, ?_, ?_⟩
    · simp [time2seconds, List.getLast?_concat, List.dropLast_concat, isUnit, hisE, hdig]
    · simp [time2seconds, List.getLast?_concat, List.dropLast_concat, isUnit, hisE, hdig]
    · simp [time2seconds, List.getLast?_concat, List.dropLast_concat, isUnit, hisE, hdig]
    · have h1 : ds.getLast? = some (ds.getLast hne) := List.getLast?_eq_getLast ds hne
      have h2 : isDig (ds.getLast hne) = true :=
        List.all_eq_true.mp hdig _ (List.getLast_mem hne)
      have h3 : isUnit (ds.getLast hne) = false := isUnit_eq_false_of_isDig h2
      simp [time2seconds, h1, h3]
  · exact ⟨by decide, by decide, by decide, by decide⟩

/-- Claim C1 witness: the amended theorem instantiated on the digit
strings of the examples. -/
theorem time2seconds_wellFormed_witness :
    time2seconds ⟨['2'] ++ ['h']⟩ = .ok (digitsVal ['2'] * 3600) ∧
    time2seconds ⟨['9', '0'] ++ ['m']⟩ = .ok (digitsVal ['9', '0'] * 60) ∧
    time2seconds ⟨['4', '5'] ++ ['s']⟩ = .ok (digitsVal ['4', '5']) ∧
    time2seconds ⟨['4', '5']⟩ = .error .invalidTimeFormat :=
  ⟨(time2seconds_wellFormed.1 ['2'] (by decide) (by decide)).1,
   (time2seconds_wellFormed.1 ['9', '0'] (by decide) (by decide)).2.1,
   (time2seconds_wellFormed.1 ['4', '5'] (by decide) (by decide)).2.2.1,
   (time2seconds_wellFormed.1 ['4', '5'] (by decide) (by decide)).2.2.2⟩

/-- Claim C1 counterexample: the claim states that the bare token "45"
yields 45, but `time2seconds` rejects every unitless token with the
invalid-format error. -/
theorem time2seconds_bare_counterexample :
    time2seconds "45" ≠ .ok 45 ∧
    time2seconds "45" = .error .invalidTimeFormat := by
  decide

/-- Claim C3: with an unknown explicit kind, acquisition fails before
any launch is attempted (the attempt list is empty), but the failure is
the raw `KeyError` from the dict lookup, not the intended
`LookupError('No browser found: ...')`: the `except IndexError` clause
never matches a `KeyError`, so the conversion is dead code. -/
theorem create_driver_unknown_kind (launch : LaunchFn) (window_size : WinSize)
    (driver_path : Option String) :
    create_driver launch "opera" window_size driver_path =
      (.error (.keyError "opera"), []) ∧
    (Except.error (PyError.keyError "opera") : Except PyError Session) ≠
      .error (.noBrowserFound "opera") := by
  exact ⟨rfl, by decide⟩

/-- Claim C4: auto-selection walks the capability table in declared
order (chrome, firefox, edge, safari), discards every candidate whose
launch fails with a `WebDriverException` and moves on, stops at the
first candidate that launches (attempting none after it), and reports
no-supported-browser exactly when all four candidates fail. -/
theorem choose_driver_spec (launch : LaunchFn) (ws : WinSize) :
    ((∀ b : Browser, launch b ws none = .error .webDriverException) →
      choose_driver launch ws =
        (.error .noSupportedBrowser, [.chrome, .firefox, .edge, .safari])) ∧
    (∀ s, launch .chrome ws none = .ok s →
      choose_driver launch ws = (.ok s, [.chrome])) ∧
    (∀ s, launch .chrome ws none = .error .webDriverException →
      launch .firefox ws none = .ok s →
      choose_driver launch ws = (.ok s, [.chrome, .firefox])) ∧
    (∀ s, launch .chrome ws none = .error .webDriverException →
      launch .firefox ws none = .error .webDriverException →
      launch .edge ws none = .ok s →
      choose_driver launch ws = (.ok s, [.chrome, .firefox, .edge])) ∧
    (∀ s, launch .chrome ws none = .error .webDriverException →
      launch .firefox ws none = .error .webDriverException →
      launch .edge ws none = .error .webDriverException →
      launch .safari ws none = .ok s →
      choose_driver launch ws = (.ok s, [.chrome, .firefox, .edge, .safari])) := by
  refine ⟨?_, ?_, ?_, ?_, ?_⟩
  · intro hall
    simp [choose_driver, BROWSERS_order, choose_go, create_driver, BROWSERS_find, hall]
  · intro s h1
    simp [choose_driver, BROWSERS_order, choose_go, create_driver, BROWSERS_find, h1]
  · intro s h1 h2
    simp [choose_driver, BROWSERS_order, choose_go, create_driver, BROWSERS_find, h1, h2]
  · intro s h1 h2 h3
    simp [choose_driver, BROWSERS_order, choose_go, create_driver, BROWSERS_find, h1, h2, h3]
  · intro s h1 h2 h3 h4
    simp [choose_driver, BROWSERS_order, choose_go, create_driver, BROWSERS_find,
      h1, h2, h3, h4]

/-- Claim C4 witness: with the oracle where chrome and firefox fail and
edge launches, auto-selection returns edge's session having attempted
exactly chrome, firefox, edge. -/
theorem choose_driver_spec_witness :
    choose_driver edgeOnlyLaunch (1920, 1080) =
      (.ok ⟨7⟩, [.chrome, .firefox, .edge]) :=
  (choose_driver_spec edgeOnlyLaunch (1920, 1080)).2.2.2.1 ⟨7⟩ rfl rfl rfl

/-- Claim C5: calibration always measures exactly once; it issues no
resize when the measured size equals the requested size, and exactly one
resize, to `(requested_w + dw, requested_h + dh)` with
`(dw, dh) = requested - actual`, when it differs. -/
theorem calibrate_spec (requested actual : Int × Int) :
    measureCount (calibrate requested actual) = 1 ∧
    (actual = requested → resizeCalls (calibrate requested actual) = []) ∧
    (actual ≠ requested →
      resizeCalls (calibrate requested actual) =
        [(requested.1 + (requested.1 - actual.1),
          requested.2 + (requested.2 - actual.2))]) := by
  refine ⟨?_, ?_, ?_⟩
  · rw [calibrate]
    split
    · rfl
    · rfl
  · intro he
    subst he
    simp [calibrate, resizeCalls]
  · intro hne
    have hcond : requested.1 - actual.1 ≠ 0 ∨ requested.2 - actual.2 ≠ 0 := by
      by_contra hc
      push_neg at hc
      obtain ⟨h1, h2⟩ := hc
      apply hne
      have e1 : actual.1 = requested.1 := by omega
      have e2 : actual.2 = requested.2 := by omega
      exact Prod.ext e1 e2
    rw [calibrate, if_pos hcond]
    rfl

/-- Claim C5 witness: a matching measurement triggers no resize, and a
measurement of 1904x1001 against a request of 1920x1080 triggers the one
compensating resize to 1936x1159. -/
theorem calibrate_spec_witness :
    measureCount (calibrate (1920, 1080) (1904, 1001)) = 1 ∧
    resizeCalls (calibrate (1920, 1080) (1920, 1080)) = [] ∧
    resizeCalls (calibrate (1920, 1080) (1904, 1001)) = [(1936, 1159)] := by
  refine ⟨(calibrate_spec (1920, 1080) (1904, 1001)).1,
    (calibrate_spec (1920, 1080) (1920, 1080)).2.1 rfl, ?_⟩
  have h := (calibrate_spec (1920, 1080) (1904, 1001)).2.2 (by decide)
  exact h.trans (by decide)

/-- Claim C6: with no explicit screenshot count, the count is the floor
of the resolved duration over the interval; 120 seconds at interval 30
resolves to exactly 4 captures. -/
theorem resolve_num_screenshots_floor (t i : Nat) :
    resolve_num_screenshots none t i = ⌊(t : ℚ) / (i : ℚ)⌋₊ ∧
    resolve_num_screenshots none 120 30 = 4 := by
  refine ⟨?_, rfl⟩
  show t / i = _
  exact (Nat.floor_div_eq_div t i).symm

/-- Zero has no digits in the auxiliary expansion, whatever the fuel. -/
theorem toDecimalAux_zero (fuel : Nat) : toDecimalAux fuel 0 = [] := by
  cases fuel
  · rfl
  · rfl

/-- Length of the digit expansion: one more than the base-10 logarithm,
provided the fuel covers the value. -/
theorem toDecimalAux_length :
    ∀ fuel n : Nat, n ≠ 0 → n ≤ fuel →
      (toDecimalAux fuel n).length = Nat.log 10 n + 1 := by
  intro fuel
  induction fuel with
  | zero => intro n hn hle; omega
  | succ f ih =>
      intro n hn hle
      obtain ⟨m, rfl⟩ := Nat.exists_eq_succ_of_ne_zero hn
      simp only [toDecimalAux, List.length_append, List.length_cons, List.length_nil]
      by_cases h10 : m + 1 < 10
      · rw [Nat.div_eq_of_lt h10, toDecimalAux_zero]
        have hlog : Nat.log 10 (m + 1) = 0 := Nat.log_eq_zero_iff.mpr (Or.inl h10)
        simp [hlog]
      · push_neg at h10
        have hq0 : (m + 1) / 10 ≠ 0 := by
          have h1 : 1 ≤ (m + 1) / 10 := (Nat.one_le_div_iff (by norm_num)).mpr h10
          omega
        have hqf : (m + 1) / 10 ≤ f := by
          have h2 : (m + 1) / 10 < m + 1 := Nat.div_lt_self (by omega) (by norm_num)
          omega
        rw [ih _ hq0 hqf]
        have hlog : Nat.log 10 ((m + 1) / 10) = Nat.log 10 (m + 1) - 1 :=
          Nat.log_div_base 10 (m + 1)
        have hpos : 0 < Nat.log 10 (m + 1) := Nat.log_pos (by norm_num) h10
        have hsucc : Nat.log 10 m.succ = Nat.log 10 (m + 1) := rfl
        omega

/-- Length of the decimal form of `n`. -/
theorem strNat_length (n : Nat) :
    (strNat n).length = if n = 0 then 1 else Nat.log 10 n + 1 := by
  rw [strNat]
  split_ifs with h
  · rfl
  · exact toDecimalAux_length n n h le_rfl

/-- The decimal form never gets shorter as the number grows. -/
theorem strNat_length_mono {m n : Nat} (h : m ≤ n) :
    (strNat m).length ≤ (strNat n).length := by
  have hl := Nat.log_mono_right (b := 10) h
  rw [strNat_length, strNat_length]
  split_ifs <;> omega

/-- Claim C7: the zero-padding width is the decimal digit count of the
total capture count, computed once for the whole run, so every index
below the count pads to that same uniform width; count 12 yields
"00.png" through "11.png", and count 100 yields 3-digit names "000.png"
through "099.png". -/
theorem runFilenames_spec (count : Nat) (_hpos : 0 < count) :
    (∀ i, i < count → (padded (digitCount count) i).length = digitCount count) ∧
    runFilenames 12 =
      ["00.png", "01.png", "02.png", "03.png", "04.png", "05.png",
       "06.png", "07.png", "08.png", "09.png", "10.png", "11.png"] ∧
    digitCount 100 = 3 ∧
    (runFilenames 100).length = 100 ∧
    (runFilenames 100).head? = some "000.png" ∧
    (runFilenames 100).getLast? = some "099.png" := by
  refine ⟨?_, by decide, by decide, by decide, by decide, by decide⟩
  intro i hi
  have hle : (strNat i).length ≤ digitCount count := strNat_length_mono hi.le
  rw [padded, List.length_append, List.length_replicate]
  omega

/-- Claim C7 witness: with count 12 the padding width is the 2-digit
width of 12, also for index 5. -/
theorem runFilenames_spec_witness :
    (padded (digitCount 12) 5).length = digitCount 12 :=
  (runFilenames_spec 12 (by decide)).1 5 (by decide)

/-- The unrolled capture loop produces three events per iteration. -/
theorem capture_from_length (outDir : String) (d interval : Nat) :
    ∀ n i, (capture_from outDir d interval i n).length = 3 * n := by
  intro n
  induction n with
  | zero => intro i; rfl
  | succ m ih =>
      intro i
      simp only [capture_from, List.length_cons, ih]
      omega

/-- Events of the `k`-th iteration of the unrolled capture loop:
screenshot, report, sleep, in that order, at positions `3k`, `3k+1`,
`3k+2`. -/
theorem capture_from_getElem (outDir : String) (d interval : Nat) :
    ∀ n i k, k < n →
      (capture_from outDir d interval i n)[3 * k]? =
        some (.screenshot (shotPath outDir d (i + k))) ∧
      (capture_from outDir d interval i n)[3 * k + 1]? =
        some (.report (shotPath outDir d (i + k))) ∧
      (capture_from outDir d interval i n)[3 * k + 2]? =
        some (.sleep interval) := by
  intro n
  induction n with
  | zero => intro i k hk; omega
  | succ m ih =>
      intro i k hk
      cases k with
      | zero =>
          refine ⟨?_, ?_, ?_⟩
          · rw [capture_from]
            simp
          · rw [capture_from]
            simp
          · rw [capture_from]
            simp
      | succ j =>
          have ihj := ih (i + 1) j (by omega)
          have hidx : i + (j + 1) = i + 1 + j := by omega
          have e0 : 3 * (j + 1) = 3 * j + 2 + 1 := by ring
          have e1 : 3 * j + 2 = 3 * j + 1 + 1 := by ring
          have e2 : 3 * (j + 1) + 2 = 3 * (j + 1) + 1 + 1 := by ring
          have e3 : 3 * (j + 1) = 3 * j + 2 + 1 := by ring
          refine ⟨?_, ?_, ?_⟩
          · rw [capture_from, e0, List.getElem?_cons_succ, e1,
              List.getElem?_cons_succ, List.getElem?_cons_succ, hidx]
            exact ihj.1
          · rw [capture_from, List.getElem?_cons_succ, e0, List.getElem?_cons_succ,
              e1, List.getElem?_cons_succ, hidx]
            exact ihj.2.1
          · rw [capture_from, e2, List.getElem?_cons_succ, List.getElem?_cons_succ,
              e3, List.getElem?_cons_succ]
            exact ihj.2.2

/-- Claim C2 (amended): the capture loop visits every index `i` in
`0..count-1` in strict sequence; iteration `i` saves a screenshot to
`outputDir/<i zero-padded>.png` (trace position `3i`), reports the path
(position `3i+1`), and then pauses for the interval (position `3i+2`) —
after every capture, including the final one, so the trace has exactly
`3*count` events. -/
theorem capture_loop_sequence (outDir : String) (count interval : Nat) :
    (capture_loop outDir count interval).length = 3 * count ∧
    ∀ i, i < count →
      (capture_loop outDir count interval)[3 * i]? =
        some (.screenshot (shotPath outDir (digitCount count) i)) ∧
      (capture_loop outDir count interval)[3 * i + 1]? =
        some (.report (shotPath outDir (digitCount count) i)) ∧
      (capture_loop outDir count interval)[3 * i + 2]? =
        some (.sleep interval) := by
  refine ⟨capture_from_length outDir (digitCount count) interval count 0, ?_⟩
  intro i hi
  have h := capture_from_getElem outDir (digitCount count) interval count 0 i hi
  simpa using h

/-- Claim C2 witness: the three-capture run at interval 10 records
screenshot, report and pause for its last index. -/
theorem capture_loop_sequence_witness :
    (capture_loop "shots" 3 10)[3 * 2]? =
      some (.screenshot (shotPath "shots" (digitCount 3) 2)) ∧
    (capture_loop "shots" 3 10)[3 * 2 + 1]? =
      some (.report (shotPath "shots" (digitCount 3) 2)) ∧
    (capture_loop "shots" 3 10)[3 * 2 + 2]? = some (.sleep 10) :=
  (capture_loop_sequence "shots" 3 10).2 2 (by decide)

/-- Claim C2 counterexample: the claim states there is no pause after
the final capture, but a one-capture run still ends with a sleep event:
the loop body sleeps unconditionally after every capture. -/
theorem capture_loop_final_pause_counterexample :
    capture_loop "out" 1 30 =
      [.screenshot "out/0.png", .report "out/0.png", .sleep 30] ∧
    (capture_loop "out" 1 30).getLast? = some (.sleep 30) ∧
    sleepCount (capture_loop "out" 1 30) = 1 := by
  decide

/-- Claim C8: a pre-existing output directory makes the run fail with
the file-exists error from `mkdir(exist_ok=False)`, before the capture
loop produces any event. -/
theorem run_captures_existing_dir (outDir : String) (count interval : Nat) :
    run_captures true outDir count interval = .error .fileExistsError :=
  rfl

/-- Claim C9: whatever trace the body produced and however it ended —
success or any error from navigation, calibration or the capture loop —
the quit call is performed, as the final action of the run, and the
body's error (if any) is still surfaced. -/
theorem with_driver_always_quits (bodyEvents : List RunEvent)
    (bodyError : Option PyError) :
    MainEvent.quit ∈ (with_driver bodyEvents bodyError).1 ∧
    (with_driver bodyEvents bodyError).1.getLast? = some .quit ∧
    (with_driver bodyEvents bodyError).2 = bodyError := by
  refine ⟨?_, ?_, rfl⟩
  · simp [with_driver]
  · simp [with_driver, List.getLast?_concat]

/-- Claim C10: acquisition with no explicit kind never consults the
driver-path argument: every candidate is launched with the default
(absent) driver path, so the outcome is unchanged under any change of
the driver-path argument or of the oracle's behaviour on explicit
driver paths. -/
theorem acquire_auto_ignores_driver_path (l₁ l₂ : LaunchFn) (ws : WinSize)
    (p₁ p₂ : Option String) (h : ∀ b w, l₁ b w none = l₂ b w none) :
    acquire l₁ none ws p₁ = acquire l₂ none ws p₂ := by
  show choose_driver l₁ ws = choose_driver l₂ ws
  rw [choose_driver, choose_driver]
  induction BROWSERS_order with
  | nil => rfl
  | cons k rest ih =>
      have hc : create_driver l₁ k ws none = create_driver l₂ k ws none := by
        cases hfind : BROWSERS_find k with
        | none => simp [create_driver, hfind]
        | some b => simp [create_driver, hfind, h b ws]
      rw [choose_go, choose_go, hc]
      cases hr : create_driver l₂ k ws none with
      | mk r att =>
          cases r with
          | ok s => rfl
          | error e => cases e <;> simp [ih]

/-- Claim C10 witness: with the edge-only oracle and a variant oracle
that differs only when an explicit driver path is supplied,
auto-selection gives the same result for an explicit path and for no
path at all. -/
theorem acquire_auto_ignores_driver_path_witness :
    acquire edgeOnlyLaunch none (1920, 1080) (some "/usr/local/bin/chromedriver") =
      acquire edgeOnlyLaunchAlt none (1920, 1080) none :=
  acquire_auto_ignores_driver_path edgeOnlyLaunch edgeOnlyLaunchAlt (1920, 1080)
    (some "/usr/local/bin/chromedriver") none (fun _ _ => rfl)

end Skyview
